import Mathlib

/-!
Verification of the `reqm` override-resolution extension and the `Quant`
abstract base type, as a shallow embedding of `src/reqm/overrides_ext.py`
and `src/reqm/quant.py`.

Methods are modelled as records carrying the metadata flags the source
reads and writes (`__allow_any_override__`, `__final__`, `__override__`,
`__isabstractmethod__`), a parameter list, and an opaque behaviour
identifier `code`.  Classes are a name plus an own-namespace association
list (Python's `vars(cls)`), and a hierarchy is the owner's MRO tail
(`owner.__mro__[1:]`) as a list of classes, nearest ancestor first.
`__set_name__` is embedded as an explicit state-passing step so that the
order of mutations (tagging the method, installing it on the owner) is
faithful to the source lines.
-/

set_option autoImplicit false

namespace Reqm

/-- A Python method object: its `__name__`, parameter signature, the
metadata flags the source manipulates, and an opaque behaviour id. -/
structure Method where
  mname : String
  params : List String
  allowAny : Bool := false
  isFinal : Bool := false
  isOverride : Bool := false
  isAbstract : Bool := false
  code : Nat := 0
  deriving Repr, DecidableEq

/-- Function `allow_any_override` (overrides_ext.py line 83): sets
`__allow_any_override__ = True` on the method and returns the same
method object, otherwise unchanged. -/
def allow_any_override (m : Method) : Method :=
  { m with allowAny := true }

/-- The `_PendingOverride` descriptor: wraps the decorated method;
`__init__` (line 102) sets `__override__ = True` on the descriptor
itself so `EnforceOverrides` sees a marked override before
`__set_name__` fires. -/
structure Pending where
  method : Method
  overrideTag : Bool
  deriving Repr, DecidableEq

/-- Decorator `override` (overrides_ext.py line 174): returns
`_PendingOverride(method)`, whose constructor sets `__override__`. -/
def override (m : Method) : Pending :=
  { method := m, overrideTag := true }

/-- An entry of a class namespace: a plain method object, or a
`_PendingOverride` descriptor not yet resolved. -/
inductive Attr where
  | plain (m : Method)
  | pend (p : Pending)
  deriving Repr, DecidableEq

/-- Reads `getattr(a, "__final__", False)`: for a pending descriptor,
`functools.update_wrapper` copied the wrapped method's `__dict__`. -/
def Attr.finalFlag : Attr → Bool
  | .plain m => m.isFinal
  | .pend p => p.method.isFinal

/-- Reads `getattr(a, "__allow_any_override__", False)`. -/
def Attr.allowAnyFlag : Attr → Bool
  | .plain m => m.allowAny
  | .pend p => p.method.allowAny

/-- Reads `getattr(a, "__isabstractmethod__", False)`. -/
def Attr.abstractFlag : Attr → Bool
  | .plain m => m.isAbstract
  | .pend p => p.method.isAbstract

/-- Reads `type(a).__name__`, as used in the `@final` error message. -/
def Attr.typeName : Attr → String
  | .plain _ => "function"
  | .pend _ => "_PendingOverride"

/-- A Python class: its `__name__` and its own namespace `vars(cls)`. -/
structure PyClass where
  cname : String
  ns : List (String × Attr)
  deriving Repr, DecidableEq

/-- Lookup `name in vars(base)` / `vars(base)[name]`: first binding of `n`. -/
def lookupNs : List (String × Attr) → String → Option Attr
  | [], _ => none
  | (k, v) :: rest, n => if k = n then some v else lookupNs rest n

/-- Update `setattr(owner, name, a)`: replace the first binding of `n` in the
class dict, or append a new one. -/
def setNs : List (String × Attr) → String → Attr → List (String × Attr)
  | [], n, a => [(n, a)]
  | (k, v) :: rest, n, a =>
    if k = n then (n, a) :: rest else (k, v) :: setNs rest n a

/-- Apply `setattr` on a class. -/
def setAttrC (c : PyClass) (n : String) (a : Attr) : PyClass :=
  { c with ns := setNs c.ns n a }

/-- The parent search of `__set_name__` (overrides_ext.py lines
110-114): walk `owner.__mro__[1:]` and take the first base whose own
namespace defines `name`. -/
def findParent : List PyClass → String → Option Attr
  | [], _ => none
  | base :: rest, n =>
    match lookupNs base.ns n with
    | some a => some a
    | none => findParent rest n

/-- Error message of overrides_ext.py lines 117-120. -/
def noOverrideMsg (n cname : String) : String :=
  "'" ++ n ++ "' in '" ++ cname ++ "' does not override any method " ++
    "in its base classes. Remove @override or check the method name."

/-- Error message of overrides_ext.py lines 124-127. -/
def finalMsg (n cname tyname : String) : String :=
  "'" ++ n ++ "' in '" ++ cname ++ "' attempts to override a " ++
    "@final method from '" ++ tyname ++ "'."

/-- The mutable state `__set_name__` acts on: the owning class and the
wrapped method object. -/
structure ResolveState where
  owner : PyClass
  method : Method
  deriving Repr, DecidableEq

/-- Hook `_PendingOverride.__set_name__` (overrides_ext.py lines 104-135),
with mutations threaded in source order: find the parent in the MRO
tail; if none, raise; if the parent carries `__final__`, raise; only
then set `__override__ = True` on the wrapped method (line 130) and
`setattr` it onto the owner (line 135).  An error leaves the state as
received, an `.ok` outcome carries the mutated state. -/
def setNameRun (mro : List PyClass) (st : ResolveState) (n : String) :
    ResolveState × Option String :=
  match findParent mro n with
  | none => (st, some (noOverrideMsg n st.owner.cname))
  | some parent =>
    if parent.finalFlag then
      (st, some (finalMsg n st.owner.cname parent.typeName))
    else
      let m := { st.method with isOverride := true }
      ({ owner := setAttrC st.owner n (.plain m), method := m }, none)

/-- Run the deferred `__set_name__` hooks of a class body in definition
order, as `type.__new__` does after installing the namespace. -/
def runSetNames (mro : List PyClass) :
    PyClass → List (String × Attr) → Except String PyClass
  | owner, [] => .ok owner
  | owner, (_, .plain _) :: rest => runSetNames mro owner rest
  | owner, (n, .pend p) :: rest =>
    match setNameRun mro { owner := owner, method := p.method } n with
    | (_, some e) => .error e
    | (st, none) => runSetNames mro st.owner rest

/-- Class construction: install the evaluated class body as the
namespace, then fire `__set_name__` for every pending override.  Any
raise aborts the construction of the class. -/
def buildClass (cname : String) (mro : List PyClass)
    (body : List (String × Attr)) : Except String PyClass :=
  runSetNames mro { cname := cname, ns := body } body

/-- Attribute lookup `getattr(cls, n)` along the full chain `cls :: mro`: the nearest
definition of `n`. -/
def resolveAttr (chain : List PyClass) (n : String) : Option Attr :=
  findParent chain n

/-- All attribute names defined anywhere along a chain of classes. -/
def allNames : List PyClass → List String
  | [] => []
  | c :: rest => c.ns.map Prod.fst ++ allNames rest

/-- Computes `cls.__abstractmethods__` as ABCMeta computes it after
`type.__new__` (and hence after the `__set_name__` hooks have replaced
pending descriptors): the names along the chain whose nearest
resolution still carries `__isabstractmethod__`. -/
def abstractNames (chain : List PyClass) : List String :=
  (allNames chain).filter fun n =>
    match resolveAttr chain n with
    | some a => a.abstractFlag
    | none => false

/-- Calling a class: CPython refuses to instantiate a class whose
`__abstractmethods__` is non-empty, with a `TypeError`. -/
def instantiate (c : PyClass) (mro : List PyClass) : Except String Unit :=
  if (abstractNames (c :: mro)).isEmpty then .ok ()
  else .error ("Can't instantiate abstract class " ++ c.cname ++
    " with abstract methods")

/-- Construct a class and then instantiate it. -/
def buildAndInstantiate (cname : String) (mro : List PyClass)
    (body : List (String × Attr)) : Except String Unit :=
  match buildClass cname mro body with
  | .error e => .error e
  | .ok c => instantiate c mro

/-- Whether a subclass of the chain leaves `n` without a concrete
(non-abstract) implementation. -/
def leavesAbstract (chain : List PyClass) (n : String) : Bool :=
  match resolveAttr chain n with
  | some a => a.abstractFlag
  | none => true

/-- Method `Quant.__call__` (quant.py lines 58-87): abstract, decorated with
`allow_any_override`, base signature `**kwargs`. -/
def quantCall : Method :=
  allow_any_override
    { mname := "__call__", params := ["**kwargs"], isAbstract := true,
      code := 1 }

/-- Method `Quant.dummy_inputs` (quant.py lines 89-121): abstract, signature
`(self)`, no exemption flag. -/
def quantDummyInputs : Method :=
  { mname := "dummy_inputs", params := [], isAbstract := true, code := 2 }

/-- The `Quant` class (quant.py line 14): own namespace defines the two
abstract capabilities; its ancestors (`EnforceOverrides`, `object`)
define neither name, so they are elided from the modelled MRO tail. -/
def Quant : PyClass :=
  { cname := "Quant",
    ns := [("__call__", .plain quantCall),
           ("dummy_inputs", .plain quantDummyInputs)] }

/-! ### Concrete scenario classes used by witnesses and counterexamples -/

/-- Parent method `greet(self)` with no markers (test_overrides_ext.py
`_GreetBase`). -/
def baseGreet : Method := { mname := "greet", params := ["self"], code := 10 }

/-- A base class defining `greet` with no exemption and no `@final`. -/
def greetBase : PyClass :=
  { cname := "GreetBase", ns := [("greet", .plain baseGreet)] }

/-- Overriding method `greet(self, extra)` whose signature differs from
`baseGreet`. -/
def childGreet : Method :=
  { mname := "greet", params := ["self", "extra"], code := 11 }

/-- Parent method marked both `@allow_any_override` and `@final`. -/
def lockedExempt : Method :=
  allow_any_override
    { mname := "run", params := ["self"], isFinal := true, code := 20 }

/-- A base class whose `run` is simultaneously exempt and final. -/
def lockedExemptBase : PyClass :=
  { cname := "LockedExemptBase", ns := [("run", .plain lockedExempt)] }

/-- Overriding method for `run` with a different signature. -/
def childRun : Method :=
  { mname := "run", params := ["self", "x"], code := 21 }

/-- Grandparent method `f(**kwargs)` marked exempt and abstract
(the `Quant.__call__` pattern). -/
def grandF : Method :=
  allow_any_override
    { mname := "f", params := ["**kwargs"], isAbstract := true, code := 30 }

/-- Grandparent class with the exempt `f`. -/
def grandBase : PyClass :=
  { cname := "GrandBase", ns := [("f", .plain grandF)] }

/-- The intermediate class's override of `f`, concrete and NOT exempt,
as `__set_name__` installs it (tagged `__override__`). -/
def midF : Method :=
  { mname := "f", params := ["self", "text"], isOverride := true, code := 31 }

/-- The intermediate class as produced by constructing it with a single
pending override of `f`. -/
def midC : PyClass := { cname := "Mid", ns := [("f", .plain midF)] }

/-- Grandchild override of `f` whose signature differs from `midF`. -/
def grandChildF : Method :=
  { mname := "f", params := ["self", "x", "y"], code := 32 }

/-- A concrete `__call__` implementation for a Quant subclass. -/
def echoCall : Method :=
  { mname := "__call__", params := ["self", "text"], code := 40 }

/-- A concrete `dummy_inputs` implementation for a Quant subclass. -/
def echoDummyInputs : Method :=
  { mname := "dummy_inputs", params := ["self"], code := 41 }

/-- Class body of a complete Quant subclass: both capabilities
implemented through `@override` (test_quant.py `EchoQuant`). -/
def echoBody : List (String × Attr) :=
  [("__call__", .pend (override echoCall)),
   ("dummy_inputs", .pend (override echoDummyInputs))]

/-- A subclass of `Quant` that implements only `dummy_inputs`
(test_quant.py `MissingCall`), after construction. -/
def missingCallC : PyClass :=
  { cname := "MissingCall",
    ns := [("dummy_inputs", .plain { echoDummyInputs with isOverride := true })] }

/-! ### Helper lemmas -/

theorem lookupNs_setNs_self (ns : List (String × Attr)) (n : String) (a : Attr) :
    lookupNs (setNs ns n a) n = some a := by
  induction ns with
  | nil => simp [setNs, lookupNs]
  | cons kv rest ih =>
    by_cases h : kv.1 = n
    · simp [setNs, lookupNs, h]
    · simp [setNs, lookupNs, h, ih]

theorem findParent_append_of_none (pre : List PyClass) (c : PyClass)
    (post : List PyClass) (n : String)
    (hpre : ∀ b ∈ pre, lookupNs b.ns n = none) :
    findParent (pre ++ c :: post) n = findParent (c :: post) n := by
  induction pre with
  | nil => rfl
  | cons b rest ih =>
    have hb : lookupNs b.ns n = none := hpre b (List.mem_cons_self b rest)
    have hrest : ∀ x ∈ rest, lookupNs x.ns n = none := fun x hx =>
      hpre x (List.mem_cons_of_mem b hx)
    simp [findParent, hb, ih hrest]

theorem lookupNs_isSome_of_mem (ns : List (String × Attr)) (n : String)
    (h : n ∈ ns.map Prod.fst) : (lookupNs ns n).isSome := by
  induction ns with
  | nil => simp at h
  | cons kv rest ih =>
    obtain ⟨k, v⟩ := kv
    by_cases hk : k = n
    · simp [lookupNs, hk]
    · have hr : n ∈ rest.map Prod.fst := by
        rcases List.mem_cons.mp h with h1 | h2
        · exact absurd h1.symm hk
        · exact h2
      simp [lookupNs, hk, ih hr]

theorem resolveAttr_isSome_of_mem (chain : List PyClass) (n : String)
    (h : n ∈ allNames chain) : (resolveAttr chain n).isSome := by
  induction chain with
  | nil => simp [allNames] at h
  | cons c rest ih =>
    have h' : n ∈ c.ns.map Prod.fst ∨ n ∈ allNames rest :=
      List.mem_append.mp h
    cases hl : lookupNs c.ns n with
    | some a => simp [resolveAttr, findParent, hl]
    | none =>
      rcases h' with h1 | h2
      · have hs := lookupNs_isSome_of_mem c.ns n h1
        rw [hl] at hs
        simp at hs
      · simp only [resolveAttr, findParent, hl]
        exact ih h2

theorem instantiate_error_of_leavesAbstract (c : PyClass) (mro : List PyClass)
    (nm : String) (hnm : nm ∈ allNames (c :: mro))
    (hla : leavesAbstract (c :: mro) nm = true) :
    instantiate c mro =
      .error ("Can't instantiate abstract class " ++ c.cname ++
        " with abstract methods") := by
  have hsome := resolveAttr_isSome_of_mem (c :: mro) nm hnm
  obtain ⟨a, ha⟩ := Option.isSome_iff_exists.mp hsome
  have habs : a.abstractFlag = true := by
    unfold leavesAbstract at hla
    rw [ha] at hla
    exact hla
  have hmem : nm ∈ abstractNames (c :: mro) := by
    unfold abstractNames
    refine List.mem_filter.mpr ⟨hnm, ?_⟩
    rw [ha]
    exact habs
  have hne : abstractNames (c :: mro) ≠ [] := List.ne_nil_of_mem hmem
  have hie : (abstractNames (c :: mro)).isEmpty = false := by
    cases hcase : abstractNames (c :: mro) with
    | nil => exact absurd hcase hne
    | cons x xs => rfl
  unfold instantiate
  rw [hie]
  simp

/-! ### Claim theorems -/

/-- C1: the claim says a non-exempt parent triggers strict signature
comparison, so a differing-signature override must fail at class
construction.  The code performs no signature comparison at all:
evaluated at a parent `greet(self)` with no exemption flag and a child
override `greet(self, extra)`, class construction succeeds and installs
the mismatched method. -/
theorem sig_mismatch_accepted_despite_nonexempt_parent :
    (Attr.plain baseGreet).allowAnyFlag = false ∧
    lookupNs greetBase.ns "greet" = some (.plain baseGreet) ∧
    childGreet.params ≠ baseGreet.params ∧
    buildClass "GreetChild" [greetBase]
      [("greet", .pend (override childGreet))] =
      .ok { cname := "GreetChild",
            ns := [("greet", .plain { childGreet with isOverride := true })] } :=
  ⟨rfl, rfl, by decide, rfl⟩

/-- C2 counterexample: the claim says construction succeeds for any
signature whenever the nearest same-named ancestor method carries the
exemption flag.  A parent marked both `@allow_any_override` and
`@final` carries the exemption flag, yet construction fails with the
final-override error. -/
theorem exempt_parent_construction_can_fail :
    (Attr.plain lockedExempt).allowAnyFlag = true ∧
    findParent [lockedExemptBase] "run" = some (.plain lockedExempt) ∧
    buildClass "Child" [lockedExemptBase]
      [("run", .pend (override childRun))] =
      .error (finalMsg "run" "Child" "function") :=
  ⟨rfl, rfl, rfl⟩

/-- C2 (amended): for every subclass whose override-marked method has a
nearest same-named ancestor carrying the exemption flag and NOT the
final marker, class construction succeeds for any parameter signature
of the overriding method, and the method is installed without any
signature comparison (the result does not depend on either signature). -/
theorem exempt_nonfinal_parent_any_signature
    (mro : List PyClass) (n cname : String) (p : Attr)
    (h1 : findParent mro n = some p)
    (_h2 : p.allowAnyFlag = true)
    (h3 : p.finalFlag = false)
    (m : Method) :
    buildClass cname mro [(n, .pend (override m))] =
      .ok { cname := cname, ns := [(n, .plain { m with isOverride := true })] } := by
  simp [buildClass, runSetNames, setNameRun, h1, h3, override, setAttrC, setNs]

/-- Witness for C2's amended theorem: the exempt, non-final `f` of
`grandBase` admits an override with the unrelated signature
`f(self, x, y)`. -/
theorem exempt_nonfinal_parent_any_signature_witness :
    buildClass "Child" [grandBase] [("f", .pend (override grandChildF))] =
      .ok { cname := "Child",
            ns := [("f", .plain { grandChildF with isOverride := true })] } :=
  exempt_nonfinal_parent_any_signature [grandBase] "f" "Child"
    (.plain grandF) (by rfl) (by rfl) (by rfl) grandChildF

/-- C3: an override-marked method whose name appears in no ancestor's
own namespace makes class construction fail with the does-not-override
`TypeError` naming the method and the owning class, regardless of any
exemption flag (the overriding method `m` is arbitrary, flags included),
during class construction. -/
theorem no_parent_override_fails
    (mro : List PyClass) (n cname : String) (m : Method)
    (h : findParent mro n = none) :
    buildClass cname mro [(n, .pend (override m))] =
      .error (noOverrideMsg n cname) := by
  simp [buildClass, runSetNames, setNameRun, h, override]

/-- Witness for C3: no ancestor of `Child` defines `nonexistent`, so
construction fails even though the override itself carries the
exemption flag. -/
theorem no_parent_override_fails_witness :
    buildClass "Child" [greetBase]
      [("nonexistent", .pend (override
        { mname := "nonexistent", params := ["self"], allowAny := true,
          code := 50 }))] =
      .error (noOverrideMsg "nonexistent" "Child") :=
  no_parent_override_fails [greetBase] "nonexistent" "Child"
    { mname := "nonexistent", params := ["self"], allowAny := true, code := 50 }
    (by rfl)

/-- C4: when the nearest same-named ancestor method carries `__final__`,
`__set_name__` raises the attempts-to-override-a-final-method
`TypeError` with the state unchanged (the method is not tagged and not
installed), and class construction fails — with no constraint on the
ancestor's exemption flag, so this holds even for an exempt final
method. -/
theorem final_parent_override_fails
    (mro : List PyClass) (owner : PyClass) (n : String) (m : Method) (p : Attr)
    (h1 : findParent mro n = some p) (h2 : p.finalFlag = true) :
    setNameRun mro { owner := owner, method := m } n =
      ({ owner := owner, method := m },
        some (finalMsg n owner.cname p.typeName)) ∧
    ∀ cname, buildClass cname mro [(n, .pend (override m))] =
      .error (finalMsg n cname p.typeName) := by
  constructor
  · simp [setNameRun, h1, h2]
  · intro cname
    simp [buildClass, runSetNames, setNameRun, h1, h2, override]

/-- Witness for C4: `lockedExempt` carries both the exemption flag and
`__final__`; overriding it fails at construction. -/
theorem final_parent_override_fails_witness :
    setNameRun [lockedExemptBase]
      { owner := { cname := "Child", ns := [] }, method := childRun } "run" =
      ({ owner := { cname := "Child", ns := [] }, method := childRun },
        some (finalMsg "run" "Child" "function")) ∧
    buildClass "Child" [lockedExemptBase]
      [("run", .pend (override childRun))] =
      .error (finalMsg "run" "Child" "function") :=
  ⟨(final_parent_override_fails [lockedExemptBase]
      { cname := "Child", ns := [] } "run" childRun (.plain lockedExempt)
      (by rfl) (by rfl)).1,
   (final_parent_override_fails [lockedExemptBase]
      { cname := "Child", ns := [] } "run" childRun (.plain lockedExempt)
      (by rfl) (by rfl)).2 "Child"⟩

/-- C5: the parent lookup selects the first class in the MRO tail whose
own namespace defines the name, and the whole resolution outcome is
independent of everything past that nearest match — in particular of a
deeper ancestor's exemption flag. -/
theorem nearest_ancestor_decides
    (pre post : List PyClass) (c : PyClass) (n : String) (a : Attr)
    (hpre : ∀ b ∈ pre, lookupNs b.ns n = none)
    (hc : lookupNs c.ns n = some a) :
    findParent (pre ++ c :: post) n = some a ∧
    ∀ post' st, setNameRun (pre ++ c :: post) st n =
      setNameRun (pre ++ c :: post') st n := by
  have hfp : ∀ q : List PyClass, findParent (pre ++ c :: q) n = some a := by
    intro q
    rw [findParent_append_of_none pre c q n hpre]
    simp [findParent, hc]
  refine ⟨hfp post, ?_⟩
  intro post' st
  simp [setNameRun, hfp post, hfp post']

/-- Witness for C5: with `midC` (non-exempt `f`) nearest and
`grandBase` (exempt `f`) deeper, the lookup returns `midC`'s method and
resolution is the same as if `grandBase` were absent. -/
theorem nearest_ancestor_decides_witness :
    findParent [midC, grandBase] "f" = some (.plain midF) ∧
    setNameRun [midC, grandBase]
      { owner := { cname := "W", ns := [] }, method := grandChildF } "f" =
      setNameRun [midC]
        { owner := { cname := "W", ns := [] }, method := grandChildF } "f" :=
  ⟨(nearest_ancestor_decides [] [grandBase] midC "f" (.plain midF)
      (fun b hb => absurd hb (List.not_mem_nil b)) (by rfl)).1,
   (nearest_ancestor_decides [] [grandBase] midC "f" (.plain midF)
      (fun b hb => absurd hb (List.not_mem_nil b)) (by rfl)).2 []
      { owner := { cname := "W", ns := [] }, method := grandChildF }⟩

/-- C6: the claim says a grandchild override is strictly
signature-checked against the intermediate class's non-exempt override
of an exempt grandparent method, so a differing signature must fail.
Evaluated on such a three-level hierarchy, the code constructs the
grandchild successfully: no signature comparison is performed anywhere
(the intermediate class itself is shown to be exactly what constructing
it through a pending override produces). -/
theorem grandchild_sig_mismatch_accepted :
    buildClass "Mid" [grandBase]
      [("f", .pend (override
        { mname := "f", params := ["self", "text"], code := 31 }))] =
      .ok midC ∧
    findParent [midC, grandBase] "f" = some (.plain midF) ∧
    midF.allowAny = false ∧
    (Attr.plain grandF).allowAnyFlag = true ∧
    grandChildF.params ≠ midF.params ∧
    buildClass "GrandChild" [midC, grandBase]
      [("f", .pend (override grandChildF))] =
      .ok { cname := "GrandChild",
            ns := [("f", .plain { grandChildF with isOverride := true })] } :=
  ⟨rfl, rfl, rfl, rfl, by decide, rfl⟩

/-- C7: instantiating `Quant` directly raises at construction time, any
subclass that leaves `__call__` or `dummy_inputs` without a concrete
implementation likewise cannot be instantiated, and a subclass
implementing both (built through the override machinery) can be. -/
theorem quant_requires_both_capabilities
    (c : PyClass)
    (h : leavesAbstract (c :: [Quant]) "__call__" = true ∨
         leavesAbstract (c :: [Quant]) "dummy_inputs" = true) :
    instantiate Quant [] =
      .error "Can't instantiate abstract class Quant with abstract methods" ∧
    instantiate c [Quant] =
      .error ("Can't instantiate abstract class " ++ c.cname ++
        " with abstract methods") ∧
    buildAndInstantiate "EchoQuant" [Quant] echoBody = .ok () := by
  refine ⟨by rfl, ?_, by rfl⟩
  rcases h with h | h
  · refine instantiate_error_of_leavesAbstract c [Quant] "__call__" ?_ h
    show "__call__" ∈ c.ns.map Prod.fst ++ allNames [Quant]
    exact List.mem_append_right _ (by decide)
  · refine instantiate_error_of_leavesAbstract c [Quant] "dummy_inputs" ?_ h
    show "dummy_inputs" ∈ c.ns.map Prod.fst ++ allNames [Quant]
    exact List.mem_append_right _ (by decide)

/-- Witness for C7: the subclass implementing only `dummy_inputs`
resolves `__call__` to the abstract base method and cannot be
instantiated. -/
theorem quant_requires_both_capabilities_witness :
    leavesAbstract (missingCallC :: [Quant]) "__call__" = true ∧
    instantiate missingCallC [Quant] =
      .error ("Can't instantiate abstract class " ++ missingCallC.cname ++
        " with abstract methods") :=
  ⟨by decide,
   (quant_requires_both_capabilities missingCallC (Or.inl (by decide))).2.1⟩

/-- C8: `allow_any_override` sets the exemption flag, returns the same
method object otherwise unchanged (same name, parameters, behaviour and
remaining flags), and is idempotent; being a total function it never
fails. -/
theorem allow_any_override_marks (m : Method) :
    allow_any_override m = { m with allowAny := true } ∧
    (allow_any_override m).allowAny = true ∧
    (allow_any_override m).mname = m.mname ∧
    (allow_any_override m).params = m.params ∧
    (allow_any_override m).code = m.code ∧
    (allow_any_override m).isFinal = m.isFinal ∧
    (allow_any_override m).isAbstract = m.isAbstract ∧
    (allow_any_override m).isOverride = m.isOverride ∧
    allow_any_override (allow_any_override m) = allow_any_override m :=
  ⟨rfl, rfl, rfl, rfl, rfl, rfl, rfl, rfl, rfl⟩

/-- Witness for C8 at a concrete method. -/
theorem allow_any_override_marks_witness :
    (allow_any_override baseGreet).allowAny = true ∧
    (allow_any_override baseGreet).mname = baseGreet.mname ∧
    allow_any_override (allow_any_override baseGreet) =
      allow_any_override baseGreet :=
  ⟨(allow_any_override_marks baseGreet).2.1,
   (allow_any_override_marks baseGreet).2.2.1,
   (allow_any_override_marks baseGreet).2.2.2.2.2.2.2.2⟩

/-- C9: whenever `__set_name__` resolution succeeds, the resolved
method carries the `__override__` tag, the owning class's entry for the
name is the resolved plain method (the pending descriptor is replaced),
and the pending descriptor returned by `override` carries the tag
already. -/
theorem resolved_override_is_tagged_and_installed
    (mro : List PyClass) (owner : PyClass) (n : String) (m : Method)
    (st' : ResolveState)
    (h : setNameRun mro { owner := owner, method := m } n = (st', none)) :
    st'.method.isOverride = true ∧
    lookupNs st'.owner.ns n = some (.plain st'.method) ∧
    (override m).overrideTag = true := by
  cases hfp : findParent mro n with
  | none => simp [setNameRun, hfp] at h
  | some p =>
    by_cases hf : p.finalFlag = true
    · simp [setNameRun, hfp, hf] at h
    · simp [setNameRun, hfp, hf] at h
      subst st'
      exact ⟨rfl, lookupNs_setNs_self owner.ns n _, rfl⟩

/-- Witness for C9: resolving `greet` in a child of `greetBase` leaves
the tagged method installed under the name. -/
theorem resolved_override_is_tagged_and_installed_witness :
    ({ childGreet with isOverride := true } : Method).isOverride = true ∧
    lookupNs [("greet", Attr.plain { childGreet with isOverride := true })]
      "greet" = some (.plain { childGreet with isOverride := true }) ∧
    (override childGreet).overrideTag = true :=
  resolved_override_is_tagged_and_installed [greetBase]
    { cname := "GreetChild", ns := [("greet", .pend (override childGreet))] }
    "greet" childGreet
    { owner := { cname := "GreetChild",
                 ns := [("greet", .plain { childGreet with isOverride := true })] },
      method := { childGreet with isOverride := true } }
    (by rfl)

/-- C10: every error path of `__set_name__` (no matching parent, final
parent) returns before mutating: the wrapped method object is exactly
as received (in particular its `__override__` flag) and the owning
class's namespace is untouched. -/
theorem failed_resolution_leaves_state_unchanged
    (mro : List PyClass) (owner : PyClass) (n : String) (m : Method)
    (st' : ResolveState) (e : String)
    (h : setNameRun mro { owner := owner, method := m } n = (st', some e)) :
    st'.owner = owner ∧ st'.method = m ∧
    st'.method.isOverride = m.isOverride ∧
    lookupNs st'.owner.ns n = lookupNs owner.ns n := by
  cases hfp : findParent mro n with
  | none =>
    simp [setNameRun, hfp] at h
    obtain ⟨h1, h2⟩ := h
    subst st'
    exact ⟨rfl, rfl, rfl, rfl⟩
  | some p =>
    by_cases hf : p.finalFlag = true
    · simp [setNameRun, hfp, hf] at h
      obtain ⟨h1, h2⟩ := h
      subst st'
      exact ⟨rfl, rfl, rfl, rfl⟩
    · simp [setNameRun, hfp, hf] at h

/-- Witness for C10: the no-matching-parent failure (empty MRO tail)
leaves the owner and the wrapped method exactly as they were. -/
theorem failed_resolution_leaves_state_unchanged_witness :
    ({ cname := "Child", ns := [] } : PyClass) =
      { cname := "Child", ns := [] } ∧
    childGreet = childGreet ∧
    childGreet.isOverride = childGreet.isOverride ∧
    lookupNs ([] : List (String × Attr)) "greet" = lookupNs [] "greet" :=
  failed_resolution_leaves_state_unchanged []
    { cname := "Child", ns := [] } "greet" childGreet
    { owner := { cname := "Child", ns := [] }, method := childGreet }
    (noOverrideMsg "greet" "Child") (by rfl)

end Reqm
